import Mathlib

/-!
Verification of the OCS Inventory REST API client
(`src/ocsinventory/restapi/client.py`) via a shallow embedding in Lean 4.

Modelling conventions
- Decoded JSON values are the inductive `JValue`; JSON numbers are modelled
  as integers (the only numerals this client handles are ids, counts and
  status codes).  A Python `dict` obtained from JSON is an insertion-ordered
  association list `List (String × JValue)`; key lookup finds the first
  occurrence, which matches Python dict semantics (keys are unique there).
- A `Response` carries its `status_code` and its body `text`.  The body is
  either text that parses as JSON (constructor `Body.json` holding the parsed
  value) or text that does not (`Body.bad`); the external `json` codec is
  modelled by `json_loads`, which succeeds exactly on parseable text.  This
  abstracts the out-of-scope external codec at its interface.
- Python exceptions are the inductive `PyError`; fallible code returns
  `Except PyError α`.  Field access, indexing, `len`, iteration and the `in`
  operator are modelled by `py*` primitives below, case by case on the
  operand's runtime type, following CPython semantics for JSON-decodable
  values.
- `Client.get`'s retry loop is modelled over an oracle `att : Nat → Attempt`
  giving the outcome `Session.get` would have on each attempt, and produces
  the final outcome together with a trace of attempt/sleep events.
- The higher-level query methods are modelled over a `Transport` oracle
  `Req → Response` mapping each issued request (URL plus query parameters,
  built exactly as in the source) to the response `Client.get` returns for
  it; each method also returns the list of requests it issued, in order.
-/

/-- A decoded JSON value (numbers restricted to integers). -/
inductive JValue where
  | null : JValue
  | bool (b : Bool) : JValue
  | num (n : Int) : JValue
  | str (s : String) : JValue
  | arr (xs : List JValue) : JValue
  | obj (kvs : List (String × JValue)) : JValue

/-- The text of an HTTP response body: either text that parses as the JSON
value carried, or text that is not valid JSON. -/
inductive Body where
  | json (v : JValue) : Body
  | bad (raw : String) : Body

/-- An HTTP response as seen by the client: status code and body text. -/
structure Response where
  status_code : Int
  text : Body

/-- A `requests.ConnectionError` instance; `msg` identifies the instance so
that "re-raised unchanged" is expressible as equality. -/
structure ConnErr where
  msg : String
deriving DecidableEq

/-- Python exceptions raised by the code under verification. -/
inductive PyError where
  | keyError (k : String) : PyError
  | indexError : PyError
  | typeError (msg : String) : PyError
  | attributeError (msg : String) : PyError
  | jsonDecodeError : PyError
  | runtimeError (response : Response) (code : Int) (msg : String) : PyError

/-- `d.keys()`: the keys of a dict in insertion order; any non-dict value
has no `keys` attribute. -/
def pyKeys : JValue → Except PyError (List String)
  | .obj kvs => .ok (kvs.map (fun kv => kv.1))
  | _ => .error (.attributeError "keys")

/-- `[key for key in d.keys()][0]`: first key of the dict, `IndexError` when
the dict is empty. -/
def pyFirstKey (d : JValue) : Except PyError String :=
  match pyKeys d with
  | .error e => .error e
  | .ok [] => .error .indexError
  | .ok (k :: _) => .ok k

/-- `v[k]` for a string key `k`: dict lookup (first occurrence), `KeyError`
when absent; subscripting any other JSON-decodable value with a string key
is a `TypeError`. -/
def pyIndexStr (v : JValue) (k : String) : Except PyError JValue :=
  match v with
  | .obj kvs =>
    match kvs.find? (fun kv => kv.1 == k) with
    | some kv => .ok kv.2
    | none => .error (.keyError k)
  | .str _ => .error (.typeError "string indices must be integers")
  | .arr _ => .error (.typeError "list indices must be integers")
  | _ => .error (.typeError "object is not subscriptable")

/-- `v[i]` for a natural index `i`: list element (`IndexError` out of range),
single-character string for strings, `KeyError` on a JSON dict (its keys are
strings, so an integer key is never present), `TypeError` otherwise. -/
def pyIndexNat (v : JValue) (i : Nat) : Except PyError JValue :=
  match v with
  | .arr xs =>
    match xs.get? i with
    | some x => .ok x
    | none => .error .indexError
  | .str s =>
    match s.toList.get? i with
    | some c => .ok (.str c.toString)
    | none => .error .indexError
  | .obj _ => .error (.keyError (toString i))
  | _ => .error (.typeError "object is not subscriptable")

/-- `len(v)`: length of a list, dict or string; `TypeError` otherwise. -/
def pyLen : JValue → Except PyError Nat
  | .arr xs => .ok xs.length
  | .obj kvs => .ok kvs.length
  | .str s => .ok s.length
  | _ => .error (.typeError "object has no len")

/-- `for x in v`: the sequence iterated over — list elements, dict keys,
single-character strings; `TypeError` otherwise. -/
def pyIter : JValue → Except PyError (List JValue)
  | .arr xs => .ok xs
  | .obj kvs => .ok (kvs.map (fun kv => .str kv.1))
  | .str s => .ok (s.toList.map (fun c => .str c.toString))
  | _ => .error (.typeError "object is not iterable")

/-- Whether the character list `n` is an initial segment of `h`
(CPython string search starts by comparing at offset 0). -/
def chrsLead : List Char → List Char → Bool
  | [], _ => true
  | _ :: _, [] => false
  | a :: n, b :: h => a == b && chrsLead n h

/-- Whether the character list `n` occurs contiguously inside `h`. -/
def chrsInside (n : List Char) : List Char → Bool
  | [] => n.isEmpty
  | c :: t => chrsLead n (c :: t) || chrsInside n t

/-- Python `needle in hay` for two strings: contiguous substring test over
the strings' characters. -/
def strInStr (needle hay : String) : Bool :=
  chrsInside needle.toList hay.toList

/-- Python `x == v` where `x` is a string and `v` a JSON-decoded value:
true exactly for the equal string (no JSON-decodable non-string value
compares equal to a string in Python). -/
def pyStrEq (x : String) : JValue → Bool
  | .str s => x == s
  | _ => false

/-- Python `x in v` where `x` is a string: substring test on a string,
element membership on a list, key membership on a dict; `TypeError` on the
remaining (non-container) values. -/
def pyInStr (x : String) : JValue → Except PyError Bool
  | .str s => .ok (strInStr x s)
  | .arr xs => .ok (xs.any (fun e => pyStrEq x e))
  | .obj kvs => .ok (kvs.any (fun kv => kv.1 == x))
  | _ => .error (.typeError "argument is not iterable")

mutual
/-- Python `repr` of a JSON-decoded value (string escaping not modelled;
the client only ever stringifies integer ids). -/
def pyRepr : JValue → String
  | .null => "None"
  | .bool true => "True"
  | .bool false => "False"
  | .num n => toString n
  | .str s => "\x27" ++ s ++ "\x27"
  | .arr xs => "[" ++ pyReprList xs ++ "]"
  | .obj kvs => "\x7b" ++ pyReprObj kvs ++ "\x7d"

/-- Comma-separated `repr`s of list elements. -/
def pyReprList : List JValue → String
  | [] => ""
  | [x] => pyRepr x
  | x :: y :: xs => pyRepr x ++ ", " ++ pyReprList (y :: xs)

/-- Comma-separated `repr`s of dict entries. -/
def pyReprObj : List (String × JValue) → String
  | [] => ""
  | [kv] => "\x27" ++ kv.1 ++ "\x27: " ++ pyRepr kv.2
  | kv :: kw :: kvs => "\x27" ++ kv.1 ++ "\x27: " ++ pyRepr kv.2 ++ ", " ++ pyReprObj (kw :: kvs)
end

/-- Python `str` of a JSON-decoded value (`str(v)` is `repr(v)` except on
strings themselves). -/
def pyStr : JValue → String
  | .str s => s
  | v => pyRepr v

/-- `json.loads` on response text: the parsed value on valid JSON, a decode
error otherwise. -/
def json_loads : Body → Except PyError JValue
  | .json v => .ok v
  | .bad _ => .error .jsonDecodeError

/-- The session state held by `Client` (`Client.__init__` in the source):
base URL, BASIC-auth credentials and the TLS-verification flag inherited
from `requests.Session`. -/
structure ClientState where
  base_url : String
  auth : Option (String × String)
  verify : Bool

namespace Client

/-- `Client.__init__(base_url, auth)`: stores the base URL and credentials
and disables TLS certificate verification (`self.verify = False`). -/
def init (base_url : String) (auth : Option (String × String)) : ClientState :=
  { base_url := base_url, auth := auth, verify := false }

/-- A query-string parameter value as placed in the `params` dict. -/
inductive PVal where
  | int (n : Int) : PVal
  | str (s : String) : PVal
deriving DecidableEq

/-- A request issued through `Client.get`: the URL built by the endpoint
accessor and its query parameters in insertion order. -/
structure Req where
  url : String
  params : List (String × PVal)

/--
The outcome `Session.get` (the superclass method) would have on one
attempt: either a response object — including HTTP 4xx/5xx responses,
which `requests` returns rather than raises — or a raised
`ConnectionError`.
-/
inductive Attempt where
  | ok (r : Response) : Attempt
  | connErr (e : ConnErr) : Attempt

/-- An observable event of the retry loop in `Client.get`: the `i`-th call
to `Session.get`, or a call to `time.sleep` with the given duration. -/
inductive GetEvent where
  | attempt (i : Nat) : GetEvent
  | sleep (duration : ℚ) : GetEvent
deriving DecidableEq

/--
The body of `Client.get`'s `for i in range(3)` loop over the remaining
indices: try `Session.get` (outcome `att i`); on success return the
response, on `ConnectionError` sleep 0.5 and re-raise when `i == 2`.
Returns the result — `none` would be Python's implicit `None` were the
loop ever to exhaust — paired with the trace of events.
-/
def getGo (att : Nat → Attempt) : List Nat → Except ConnErr (Option Response) × List GetEvent
  | [] => (.ok none, [])
  | i :: rest =>
    match att i with
    | .ok r => (.ok (some r), [.attempt i])
    | .connErr e =>
      if i = 2 then
        (.error e, [.attempt i, .sleep (1/2)])
      else
        let (res, tr) := getGo att rest
        (res, .attempt i :: .sleep (1/2) :: tr)

/-- `Client.get`: the retry loop run on `range(3)`. -/
def get (att : Nat → Attempt) : Except ConnErr (Option Response) × List GetEvent :=
  getGo att [0, 1, 2]

/-- The transport oracle seen by the query methods: for each request, the
response `Client.get` completes with. -/
def Transport := Req → Response

/-- The request built by `get_computers_id`. -/
def computers_id_req (s : ClientState) : Req :=
  { url := s.base_url ++ "/computers/listID", params := [] }

/-- The request built by `get_computer_details(computer_id)`:
`base_url + '/computer/' + str(computer_id)`. -/
def computer_details_req (s : ClientState) (computer_id : JValue) : Req :=
  { url := s.base_url ++ "/computer/" ++ pyStr computer_id, params := [] }

/-- The request built by `get_computers_details(start, limit)`. -/
def computers_details_req (s : ClientState) (start limit : Int) : Req :=
  { url := s.base_url ++ "/computers"
    params := [("start", .int start), ("limit", .int limit)] }

/-- The request built by
`get_computers_search(start, limit, search_criteria, search_value)`. -/
def computers_search_req (s : ClientState) (start limit : Int)
    (search_criteria search_value : String) : Req :=
  { url := s.base_url ++ "/computers/search"
    params := [("start", .int start), ("limit", .int limit),
               (search_criteria, .str search_value)] }

/-- `get_computers_id()`: issue the id-list request. Result response paired
with the requests issued. -/
def get_computers_id (t : Transport) (s : ClientState) : Response × List Req :=
  (t (computers_id_req s), [computers_id_req s])

/-- `get_computer_details(computer_id)`. -/
def get_computer_details (t : Transport) (s : ClientState) (computer_id : JValue) :
    Response × List Req :=
  (t (computer_details_req s computer_id), [computer_details_req s computer_id])

/-- `get_computers_details(start, limit)`. -/
def get_computers_details (t : Transport) (s : ClientState) (start limit : Int) :
    Response × List Req :=
  (t (computers_details_req s start limit), [computers_details_req s start limit])

/-- `get_computers_search(start, limit, search_criteria, search_value)`. -/
def get_computers_search (t : Transport) (s : ClientState) (start limit : Int)
    (search_criteria search_value : String) : Response × List Req :=
  (t (computers_search_req s start limit search_criteria search_value),
   [computers_search_req s start limit search_criteria search_value])

/-- `is_response_valid(response)`: HTTP status code equals 200. -/
def is_response_valid (response : Response) : Bool :=
  response.status_code == 200

/-- `response_to_collection(response)`: `json.loads(response.text)`. -/
def response_to_collection (response : Response) : Except PyError JValue :=
  json_loads response.text

/-- `_raise_api_error(response)`: the `RuntimeError` it raises, carrying the
response, its status code and a fixed message. -/
def raise_api_error (response : Response) : PyError :=
  .runtimeError response response.status_code "Error with OCS Inventory REST API."

/--
The error Python actually raises at the call sites that invoke
`self._raise_api_error()` with no argument (`list_computers_id`,
`computers_by_tag`, `computers_by_software`): the call fails
argument-binding before the method body runs.
-/
def missingArgError : PyError :=
  .typeError "_raise_api_error() missing 1 required positional argument: \x27response\x27"

/-- `total_nb_computers()`: fetch the id list and return
`len(json.loads(response.text))` — no status validation. -/
def total_nb_computers (t : Transport) (s : ClientState) : Except PyError Nat × List Req :=
  let (res, tr) := get_computers_id t s
  match json_loads res.text with
  | .error e => (.error e, tr)
  | .ok v =>
    match pyLen v with
    | .error e => (.error e, tr)
    | .ok n => (.ok n, tr)

/-- `search_in_all_computers(search_criteria, search_value)`:
`get_computers_search(0, total_nb_computers(), ...)`. -/
def search_in_all_computers (t : Transport) (s : ClientState)
    (search_criteria search_value : String) : Except PyError Response × List Req :=
  match total_nb_computers t s with
  | (.error e, tr) => (.error e, tr)
  | (.ok n, tr) =>
    let (r, tr2) := get_computers_search t s 0 (n : Int) search_criteria search_value
    (.ok r, tr ++ tr2)

/-- The comprehension `[computer_id['ID'] for computer_id in coll]`,
evaluated left to right, the first failing subscript aborting it. -/
def extractIds : List JValue → Except PyError (List JValue)
  | [] => .ok []
  | x :: xs =>
    match pyIndexStr x "ID" with
    | .error e => .error e
    | .ok i =>
      match extractIds xs with
      | .error e => .error e
      | .ok rest => .ok (i :: rest)

/--
`list_computers_id()`: fetch the id list; on a valid (status 200) response
return the `ID` field of each decoded entry in order; otherwise the call
`self._raise_api_error()` — written with no argument — raises the
missing-argument `TypeError`.
-/
def list_computers_id (t : Transport) (s : ClientState) :
    Except PyError (List JValue) × List Req :=
  let (response, tr) := get_computers_id t s
  if is_response_valid response then
    match response_to_collection response with
    | .error e => (.error e, tr)
    | .ok coll =>
      match pyIter coll with
      | .error e => (.error e, tr)
      | .ok items => (extractIds items, tr)
  else
    (.error missingArgError, tr)

/-- `extract_computer_id(computer_details)`: the first key of the record. -/
def extract_computer_id (computer_details : JValue) : Except PyError String :=
  pyFirstKey computer_details

/-- `extract_computer_name(computer_details)`:
`computer_details[id]['hardware']['NAME']`. -/
def extract_computer_name (computer_details : JValue) : Except PyError JValue :=
  match extract_computer_id computer_details with
  | .error e => .error e
  | .ok computer_id =>
    match pyIndexStr computer_details computer_id with
    | .error e => .error e
    | .ok inner =>
      match pyIndexStr inner "hardware" with
      | .error e => .error e
      | .ok hw => pyIndexStr hw "NAME"

/--
`computer_has_tag(computer_details, search_tag)`: take the record's first
key, read `accountinfo` under it; empty `accountinfo` is `False`; otherwise
test `search_tag in accountinfo[0]['TAG']`.
-/
def computer_has_tag (computer_details : JValue) (search_tag : String) :
    Except PyError Bool :=
  match pyFirstKey computer_details with
  | .error e => .error e
  | .ok computer_id =>
    match pyIndexStr computer_details computer_id with
    | .error e => .error e
    | .ok inner =>
      match pyIndexStr inner "accountinfo" with
      | .error e => .error e
      | .ok accountinfo =>
        match pyLen accountinfo with
        | .error e => .error e
        | .ok n =>
          if n = 0 then .ok false
          else
            match pyIndexNat accountinfo 0 with
            | .error e => .error e
            | .ok first =>
              match pyIndexStr first "TAG" with
              | .error e => .error e
              | .ok tags => pyInStr search_tag tags

/--
The `for soft in softwares` loop of `computer_has_software`: per entry,
evaluate `software_value in soft[software_criteria]` inside
`try ... except TypeError: pass` — a `TypeError` (from the subscript or
from `in`) is swallowed and the scan continues; any other exception
(notably `KeyError` on a missing field) propagates; the loop returns
`True` on the first match and the function falls through to `False`.
-/
def hasSoftwareGo (software_criteria software_value : String) :
    List JValue → Except PyError Bool
  | [] => .ok false
  | soft :: rest =>
    match
      ((match pyIndexStr soft software_criteria with
        | .error e => .error e
        | .ok field => pyInStr software_value field) : Except PyError Bool) with
    | .ok true => .ok true
    | .ok false => hasSoftwareGo software_criteria software_value rest
    | .error (.typeError _) => hasSoftwareGo software_criteria software_value rest
    | .error e => .error e

/--
`computer_has_software(computer_details, software_criteria, software_value)`:
take the record's first key, read the software list under the empty-string
key; when non-empty, scan it with `hasSoftwareGo`; return `False` otherwise.
-/
def computer_has_software (computer_details : JValue)
    (software_criteria software_value : String) : Except PyError Bool :=
  match pyFirstKey computer_details with
  | .error e => .error e
  | .ok computer_id =>
    match pyIndexStr computer_details computer_id with
    | .error e => .error e
    | .ok inner =>
      match pyIndexStr inner "" with
      | .error e => .error e
      | .ok softwares =>
        match pyLen softwares with
        | .error e => .error e
        | .ok n =>
          if n ≠ 0 then
            match pyIter softwares with
            | .error e => .error e
            | .ok items => hasSoftwareGo software_criteria software_value items
          else .ok false

/--
The `for computer_id in self.list_computers_id()` loop of
`computers_by_tag`: fetch each detail record; on a valid response decode it
and keep it when `computer_has_tag` holds; on an invalid response the
no-argument call `self._raise_api_error()` raises the missing-argument
`TypeError`; errors abort the loop.
-/
def byTagGo (t : Transport) (s : ClientState) (tag : String) :
    List JValue → Except PyError (List JValue) × List Req
  | [] => (.ok [], [])
  | computer_id :: rest =>
    let (response, tr1) := get_computer_details t s computer_id
    if is_response_valid response then
      match response_to_collection response with
      | .error e => (.error e, tr1)
      | .ok computer_details =>
        match computer_has_tag computer_details tag with
        | .error e => (.error e, tr1)
        | .ok b =>
          let (res, tr2) := byTagGo t s tag rest
          (match res with
           | .error e => .error e
           | .ok computers => .ok (if b then computer_details :: computers else computers),
           tr1 ++ tr2)
    else
      (.error missingArgError, tr1)

/-- `computers_by_tag(tag)`: iterate `list_computers_id()` with `byTagGo`. -/
def computers_by_tag (t : Transport) (s : ClientState) (tag : String) :
    Except PyError (List JValue) × List Req :=
  match list_computers_id t s with
  | (.error e, tr) => (.error e, tr)
  | (.ok ids, tr) =>
    let (res, tr2) := byTagGo t s tag ids
    (res, tr ++ tr2)

/-- The loop of `computers_by_software`, same shape as `byTagGo` with the
`computer_has_software` test. -/
def bySoftwareGo (t : Transport) (s : ClientState)
    (software_criteria software_value : String) :
    List JValue → Except PyError (List JValue) × List Req
  | [] => (.ok [], [])
  | computer_id :: rest =>
    let (response, tr1) := get_computer_details t s computer_id
    if is_response_valid response then
      match response_to_collection response with
      | .error e => (.error e, tr1)
      | .ok computer_details =>
        match computer_has_software computer_details software_criteria software_value with
        | .error e => (.error e, tr1)
        | .ok b =>
          let (res, tr2) := bySoftwareGo t s software_criteria software_value rest
          (match res with
           | .error e => .error e
           | .ok computers => .ok (if b then computer_details :: computers else computers),
           tr1 ++ tr2)
    else
      (.error missingArgError, tr1)

/-- `computers_by_software(software_criteria, software_value)`. -/
def computers_by_software (t : Transport) (s : ClientState)
    (software_criteria software_value : String) :
    Except PyError (List JValue) × List Req :=
  match list_computers_id t s with
  | (.error e, tr) => (.error e, tr)
  | (.ok ids, tr) =>
    let (res, tr2) := bySoftwareGo t s software_criteria software_value ids
    (res, tr ++ tr2)

end Client

namespace Client

/-!
State-passing forms of the query methods, for the frame property: outside
`__init__` the source never assigns to `self.base_url`, `self.auth` or
`self.verify` (nor to any other `self` attribute), so every method body
returns the session state it was entered with.
-/

/-- `get` with the session state threaded through. -/
def get_st (att : Nat → Attempt) (s : ClientState) :
    (Except ConnErr (Option Response) × List GetEvent) × ClientState :=
  (get att, s)

/-- `get_computers_id` with the session state threaded through. -/
def get_computers_id_st (t : Transport) (s : ClientState) :
    (Response × List Req) × ClientState :=
  (get_computers_id t s, s)

/-- `get_computer_details` with the session state threaded through. -/
def get_computer_details_st (t : Transport) (s : ClientState) (computer_id : JValue) :
    (Response × List Req) × ClientState :=
  (get_computer_details t s computer_id, s)

/-- `get_computers_details` with the session state threaded through. -/
def get_computers_details_st (t : Transport) (s : ClientState) (start limit : Int) :
    (Response × List Req) × ClientState :=
  (get_computers_details t s start limit, s)

/-- `get_computers_search` with the session state threaded through. -/
def get_computers_search_st (t : Transport) (s : ClientState) (start limit : Int)
    (search_criteria search_value : String) :
    (Response × List Req) × ClientState :=
  (get_computers_search t s start limit search_criteria search_value, s)

/-- `total_nb_computers` with the session state threaded through. -/
def total_nb_computers_st (t : Transport) (s : ClientState) :
    (Except PyError Nat × List Req) × ClientState :=
  (total_nb_computers t s, s)

/-- `search_in_all_computers` with the session state threaded through. -/
def search_in_all_computers_st (t : Transport) (s : ClientState)
    (search_criteria search_value : String) :
    (Except PyError Response × List Req) × ClientState :=
  (search_in_all_computers t s search_criteria search_value, s)

/-- `list_computers_id` with the session state threaded through. -/
def list_computers_id_st (t : Transport) (s : ClientState) :
    (Except PyError (List JValue) × List Req) × ClientState :=
  (list_computers_id t s, s)

/-- `computers_by_tag` with the session state threaded through. -/
def computers_by_tag_st (t : Transport) (s : ClientState) (tag : String) :
    (Except PyError (List JValue) × List Req) × ClientState :=
  (computers_by_tag t s tag, s)

/-- `computers_by_software` with the session state threaded through. -/
def computers_by_software_st (t : Transport) (s : ClientState)
    (software_criteria software_value : String) :
    (Except PyError (List JValue) × List Req) × ClientState :=
  (computers_by_software t s software_criteria software_value, s)

end Client

/-- Whether one software entry matches the criterion/value pair: its
`software_criteria` field exists and `software_value` is contained in it; a
`TypeError` from the subscript or from the `in` test counts as a non-match,
exactly as the source's `except TypeError: pass` swallows it. -/
def softMatch (software_criteria software_value : String) (soft : JValue) : Bool :=
  match pyIndexStr soft software_criteria with
  | .error _ => false
  | .ok field =>
    match pyInStr software_value field with
    | .ok b => b
    | .error _ => false

/-- A fixed session for concrete evaluations: `Client("http://ocs")`. -/
def wState : ClientState := Client.init "http://ocs" none

/-- Transport fixture: every request gets HTTP 500 with an empty JSON list
body. -/
def wT500 : Client.Transport := fun _ =>
  { status_code := 500, text := .json (.arr []) }

/-- Transport fixture: every request gets status 200 with body
`[{"ID":1},{"ID":2}]`. -/
def wTIds : Client.Transport := fun _ =>
  { status_code := 200, text := .json (.arr [.obj [("ID", .num 1)], .obj [("ID", .num 2)]]) }

/-- Transport fixture: every request gets status 200 with a 42-entry JSON
list body. -/
def wT42 : Client.Transport := fun _ =>
  { status_code := 200, text := .json (.arr (List.replicate 42 (.obj [("ID", .num 7)]))) }

/-- Transport fixture: every request gets status 200 with a body that is
not valid JSON. -/
def wTBad : Client.Transport := fun _ =>
  { status_code := 200, text := .bad "<html>auth required</html>" }

/-- A record whose first accountinfo entry carries the tag string
`"lab-A,lab-B"`. -/
def wRecTagged : JValue :=
  .obj [("1", .obj [("accountinfo", .arr [.obj [("TAG", .str "lab-A,lab-B")]])])]

/-- A record with an empty accountinfo list. -/
def wRecPlain : JValue :=
  .obj [("2", .obj [("accountinfo", .arr [])])]

/-- Transport fixture for a tag-filter run against `wState`: detail
responses for computers 1 and 2, the id list `[{"ID":1},{"ID":2}]` for the
id-list request. -/
def wTTag : Client.Transport := fun r =>
  if r.url = "http://ocs/computer/1" then
    { status_code := 200, text := .json wRecTagged }
  else if r.url = "http://ocs/computer/2" then
    { status_code := 200, text := .json wRecPlain }
  else
    { status_code := 200, text := .json (.arr [.obj [("ID", .num 1)], .obj [("ID", .num 2)]]) }

/--
C1: for every call to the transport `get` operation: if an attempt raises a
connection-level error, up to 3 total attempts are made with a 0.5
time-unit sleep between attempts, and after the 3rd failed attempt the
final connection error is re-raised to the caller unchanged; if any attempt
succeeds (e.g. the 2nd, or the 3rd), its response is returned and no error
is raised; a non-connection outcome — a response object, including HTTP
4xx/5xx responses — is never retried and is returned as a normal response
on the first attempt that produces it.
-/
theorem transport_get_retry (att : Nat → Client.Attempt) (r : Response)
    (e0 e1 e2 : ConnErr) :
    (att 0 = .connErr e0 → att 1 = .connErr e1 → att 2 = .connErr e2 →
      Client.get att = (.error e2,
        [.attempt 0, .sleep (1/2), .attempt 1, .sleep (1/2), .attempt 2, .sleep (1/2)])) ∧
    (att 0 = .connErr e0 → att 1 = .ok r →
      Client.get att = (.ok (some r), [.attempt 0, .sleep (1/2), .attempt 1])) ∧
    (att 0 = .connErr e0 → att 1 = .connErr e1 → att 2 = .ok r →
      Client.get att = (.ok (some r),
        [.attempt 0, .sleep (1/2), .attempt 1, .sleep (1/2), .attempt 2])) ∧
    (att 0 = .ok r → Client.get att = (.ok (some r), [.attempt 0])) := by
  refine ⟨fun h0 h1 h2 => ?_, fun h0 h1 => ?_, fun h0 h1 h2 => ?_, fun h0 => ?_⟩
  · simp [Client.get, Client.getGo, h0, h1, h2]
  · simp [Client.get, Client.getGo, h0, h1]
  · simp [Client.get, Client.getGo, h0, h1, h2]
  · simp [Client.get, Client.getGo, h0]

/-- Witness for C1: all four retry behaviours at concrete attempt oracles,
with the HTTP 404 response standing in for a non-connection error. -/
theorem transport_get_retry_witness :
    (Client.get (fun _ => .connErr ⟨"refused"⟩) = (.error ⟨"refused"⟩,
      [.attempt 0, .sleep (1/2), .attempt 1, .sleep (1/2), .attempt 2, .sleep (1/2)])) ∧
    (Client.get (fun i => if i == 0 then .connErr ⟨"refused"⟩ else .ok ⟨404, .bad "nf"⟩) =
      (.ok (some ⟨404, .bad "nf"⟩), [.attempt 0, .sleep (1/2), .attempt 1])) ∧
    (Client.get (fun i => if i == 2 then .ok ⟨200, .bad "b"⟩ else .connErr ⟨"refused"⟩) =
      (.ok (some ⟨200, .bad "b"⟩),
        [.attempt 0, .sleep (1/2), .attempt 1, .sleep (1/2), .attempt 2])) ∧
    (Client.get (fun _ => .ok ⟨404, .bad "nf"⟩) = (.ok (some ⟨404, .bad "nf"⟩), [.attempt 0])) :=
  ⟨(transport_get_retry _ ⟨404, .bad "nf"⟩ ⟨"refused"⟩ ⟨"refused"⟩ ⟨"refused"⟩).1 rfl rfl rfl,
   (transport_get_retry _ ⟨404, .bad "nf"⟩ ⟨"refused"⟩ ⟨"refused"⟩ ⟨"refused"⟩).2.1 rfl rfl,
   (transport_get_retry _ ⟨200, .bad "b"⟩ ⟨"refused"⟩ ⟨"refused"⟩ ⟨"refused"⟩).2.2.1 rfl rfl rfl,
   (transport_get_retry _ ⟨404, .bad "nf"⟩ ⟨"refused"⟩ ⟨"refused"⟩ ⟨"refused"⟩).2.2.2 rfl⟩

/-- `chrsLead n h` holds exactly when `h` extends `n`. -/
theorem chrsLead_iff (n h : List Char) : chrsLead n h = true ↔ ∃ t, h = n ++ t := by
  induction n generalizing h with
  | nil => simp [chrsLead]
  | cons a n ih =>
    cases h with
    | nil => simp [chrsLead]
    | cons b h2 =>
      show (a == b && chrsLead n h2) = true ↔ _
      rw [Bool.and_eq_true, beq_iff_eq, ih]
      constructor
      · rintro ⟨rfl, t, rfl⟩
        exact ⟨t, rfl⟩
      · rintro ⟨t, ht⟩
        injection ht with hb hh
        exact ⟨hb.symm, t, hh⟩

/-- `chrsInside n h` holds exactly when `n` occurs contiguously in `h`. -/
theorem chrsInside_iff (n h : List Char) :
    chrsInside n h = true ↔ ∃ pre post, h = pre ++ n ++ post := by
  induction h with
  | nil =>
    show n.isEmpty = true ↔ _
    rw [List.isEmpty_iff]
    constructor
    · rintro rfl
      exact ⟨[], [], rfl⟩
    · rintro ⟨pre, post, hp⟩
      have h2 := hp.symm
      rcases List.append_eq_nil.mp h2 with ⟨h3, _⟩
      exact (List.append_eq_nil.mp h3).2
  | cons c t ih =>
    show (chrsLead n (c :: t) || chrsInside n t) = true ↔ _
    rw [Bool.or_eq_true, chrsLead_iff, ih]
    constructor
    · rintro (⟨tl, hl⟩ | ⟨pre, post, hp⟩)
      · exact ⟨[], tl, by simpa using hl⟩
      · exact ⟨c :: pre, post, by simp [hp]⟩
    · rintro ⟨pre, post, hp⟩
      cases pre with
      | nil =>
        left
        exact ⟨post, by simpa using hp⟩
      | cons p pre2 =>
        right
        injection hp with h1 h2
        exact ⟨pre2, post, h2⟩

/-- The Python substring test agrees with contiguous-occurrence of the
character sequences. -/
theorem strInStr_iff (needle hay : String) :
    strInStr needle hay = true ↔ ∃ pre post, hay.toList = pre ++ needle.toList ++ post :=
  chrsInside_iff needle.toList hay.toList

/-- The first key of a non-empty dict is its head entry's key. -/
theorem pyFirstKey_cons (k : String) (v : JValue) (rest : List (String × JValue)) :
    pyFirstKey (.obj ((k, v) :: rest)) = .ok k := rfl

/-- Subscripting a dict by its head entry's key yields the head value. -/
theorem pyIndexStr_head (k : String) (v : JValue) (rest : List (String × JValue)) :
    pyIndexStr (.obj ((k, v) :: rest)) k = .ok v := by
  simp [pyIndexStr, List.find?_cons]

/--
C4: for every computer record and search tag passed to `computer_has_tag`:
if the record's `accountinfo` sequence is empty the result is `False`;
otherwise the result is `True` iff the search tag occurs as a contiguous
substring of the `TAG` string of the first `accountinfo` entry.
-/
theorem has_tag_spec (k : String) (inner : JValue)
    (rest : List (String × JValue)) (tag : String) (l : List JValue)
    (hacc : pyIndexStr inner "accountinfo" = .ok (.arr l)) :
    (l = [] → Client.computer_has_tag (.obj ((k, inner) :: rest)) tag = .ok false) ∧
    (∀ first l2 tags, l = first :: l2 → pyIndexStr first "TAG" = .ok (.str tags) →
      Client.computer_has_tag (.obj ((k, inner) :: rest)) tag = .ok (strInStr tag tags) ∧
      (strInStr tag tags = true ↔ ∃ pre post, tags.toList = pre ++ tag.toList ++ post)) := by
  constructor
  · rintro rfl
    simp [Client.computer_has_tag, pyFirstKey_cons, pyIndexStr_head, hacc, pyLen]
  · rintro first l2 tags rfl htag
    refine ⟨?_, strInStr_iff tag tags⟩
    simp [Client.computer_has_tag, pyFirstKey_cons, pyIndexStr_head, hacc, pyLen,
      pyIndexNat, htag, pyInStr]

/-- Witness for C4: on the record whose first accountinfo `TAG` is
`"lab-A,lab-B"`, searching for tag `"lab-A"` returns `True`. -/
theorem has_tag_spec_witness :
    Client.computer_has_tag wRecTagged "lab-A" = .ok true := by
  have h := (has_tag_spec "1" (.obj [("accountinfo", .arr [.obj [("TAG", .str "lab-A,lab-B")]])])
    [] "lab-A" [.obj [("TAG", .str "lab-A,lab-B")]] rfl).2
    (.obj [("TAG", .str "lab-A,lab-B")]) [] "lab-A,lab-B" rfl rfl
  rw [show wRecTagged = .obj [("1", .obj [("accountinfo",
    .arr [.obj [("TAG", .str "lab-A,lab-B")]])])] from rfl, h.1]
  rfl

/--
C10: for every record mapping passed to `extract_computer_id`,
`computer_has_tag` or `computer_has_software`: the single-top-level-key
invariant is never checked — on a mapping with more than one top-level key
each function silently uses the first key in iteration order (its result
coincides with the result on the mapping restricted to its first entry) —
and on an empty mapping each function fails with an out-of-range index
error instead of returning a value.
-/
theorem record_first_key_only (k : String) (v : JValue) (rest : List (String × JValue))
    (tag crit val : String) :
    (Client.extract_computer_id (.obj ((k, v) :: rest)) = .ok k ∧
     Client.computer_has_tag (.obj ((k, v) :: rest)) tag =
       Client.computer_has_tag (.obj [(k, v)]) tag ∧
     Client.computer_has_software (.obj ((k, v) :: rest)) crit val =
       Client.computer_has_software (.obj [(k, v)]) crit val) ∧
    (Client.extract_computer_id (.obj []) = .error .indexError ∧
     Client.computer_has_tag (.obj []) tag = .error .indexError ∧
     Client.computer_has_software (.obj []) crit val = .error .indexError) := by
  refine ⟨⟨rfl, ?_, ?_⟩, rfl, rfl, rfl⟩
  · simp [Client.computer_has_tag, pyFirstKey_cons, pyIndexStr_head]
  · simp [Client.computer_has_software, pyFirstKey_cons, pyIndexStr_head]

/--
C2 (code evaluation at the failing input): on an id-list response with
status 500, `list_computers_id` does not fail with the API error carrying
the offending response — the no-argument call `self._raise_api_error()`
makes it fail with the missing-positional-argument `TypeError` instead,
whatever response one would construct the API error from.
-/
theorem list_computers_id_non200_missing_arg :
    (Client.list_computers_id wT500 wState).1 = .error Client.missingArgError ∧
    ∀ r : Response,
      (Client.list_computers_id wT500 wState).1 ≠ .error (Client.raise_api_error r) := by
  refine ⟨rfl, fun r h => ?_⟩
  rw [show (Client.list_computers_id wT500 wState).1
      = .error Client.missingArgError from rfl] at h
  simp [Client.missingArgError, Client.raise_api_error] at h

/-- A failing string subscript is either a `KeyError` for that key or a
`TypeError`, never anything else. -/
theorem pyIndexStr_error_shape (v : JValue) (k : String) (e : PyError)
    (h : pyIndexStr v k = .error e) :
    e = .keyError k ∨ ∃ m, e = .typeError m := by
  cases v with
  | obj kvs =>
    simp only [pyIndexStr] at h
    cases hf : List.find? (fun kv => kv.1 == k) kvs with
    | some kv =>
      rw [hf] at h
      exact Except.noConfusion h
    | none =>
      rw [hf] at h
      injection h with he
      exact .inl he.symm
  | null =>
    injection h with he
    exact .inr ⟨_, he.symm⟩
  | bool b =>
    injection h with he
    exact .inr ⟨_, he.symm⟩
  | num n =>
    injection h with he
    exact .inr ⟨_, he.symm⟩
  | str s =>
    injection h with he
    exact .inr ⟨_, he.symm⟩
  | arr xs =>
    injection h with he
    exact .inr ⟨_, he.symm⟩

/-- A failing `in` test is always a `TypeError`. -/
theorem pyInStr_error_shape (x : String) (v : JValue) (e : PyError)
    (h : pyInStr x v = .error e) : ∃ m, e = .typeError m := by
  cases v with
  | str s => exact Except.noConfusion h
  | arr xs => exact Except.noConfusion h
  | obj kvs => exact Except.noConfusion h
  | null =>
    injection h with he
    exact ⟨_, he.symm⟩
  | bool b =>
    injection h with he
    exact ⟨_, he.symm⟩
  | num n =>
    injection h with he
    exact ⟨_, he.symm⟩

/-- The software scan loop, when no entry's subscript would raise a
`KeyError`, computes `List.any` of the per-entry match test: `TypeError`s
are swallowed as non-matches and the scan continues. -/
theorem hasSoftwareGo_spec (crit val : String) (softs : List JValue)
    (hnokey : ∀ soft ∈ softs, ∀ kk, pyIndexStr soft crit ≠ .error (.keyError kk)) :
    Client.hasSoftwareGo crit val softs = .ok (softs.any (softMatch crit val)) := by
  induction softs with
  | nil => rfl
  | cons soft rest ih =>
    have ihr := ih (fun x hx kk => hnokey x (List.mem_cons_of_mem soft hx) kk)
    cases hf : pyIndexStr soft crit with
    | error e =>
      rcases pyIndexStr_error_shape soft crit e hf with he | ⟨m, he⟩
      · rw [he] at hf
        exact absurd hf (hnokey soft (List.mem_cons_self soft rest) crit)
      · subst he
        simp [Client.hasSoftwareGo, hf, softMatch, ihr]
    | ok field =>
      cases hi : pyInStr val field with
      | error e2 =>
        rcases pyInStr_error_shape val field e2 hi with ⟨m, he⟩
        subst he
        simp [Client.hasSoftwareGo, hf, hi, softMatch, ihr]
      | ok b =>
        cases b with
        | false => simp [Client.hasSoftwareGo, hf, hi, softMatch, ihr]
        | true => simp [Client.hasSoftwareGo, hf, hi, softMatch]

/--
C3 (amended): for every computer record and software criterion/value passed
to `computer_has_software`: provided no entry of the software list is a
dict missing the requested field, every entry is scanned; an entry whose
field value has an incomparable type for substring testing — or which is
not subscriptable at all — is skipped silently as a non-match without
raising, subsequent entries are still evaluated, and the result is true iff
some entry's field contains the value (`softMatch`).  An entry whose
requested field is absent is NOT skipped: the `KeyError` escapes the
`except TypeError` handler (see the counterexample theorem).
-/
theorem computer_has_software_scan (k : String) (inner : JValue)
    (rest : List (String × JValue)) (crit val : String) (softs : List JValue)
    (hsoft : pyIndexStr inner "" = .ok (.arr softs))
    (hnokey : ∀ soft ∈ softs, ∀ kk, pyIndexStr soft crit ≠ .error (.keyError kk)) :
    Client.computer_has_software (.obj ((k, inner) :: rest)) crit val
      = .ok (softs.any (softMatch crit val)) := by
  have hloop := hasSoftwareGo_spec crit val softs hnokey
  cases softs with
  | nil =>
    simp [Client.computer_has_software, pyFirstKey_cons, pyIndexStr_head, hsoft, pyLen]
  | cons s0 ss =>
    simp [Client.computer_has_software, pyFirstKey_cons, pyIndexStr_head, hsoft, pyLen,
      pyIter, hloop]

/-- Witness for C3 (amended): a first entry whose `NAME` field is the
integer 3 is skipped as a `TypeError` non-match and the second entry,
`NAME` `"firefox"`, still matches the value `"fire"`. -/
theorem computer_has_software_scan_witness :
    Client.computer_has_software
      (.obj [("5", .obj [("", .arr [.obj [("NAME", .num 3)], .obj [("NAME", .str "firefox")]])])])
      "NAME" "fire" = .ok true := by
  have h := computer_has_software_scan "5"
    (.obj [("", .arr [.obj [("NAME", .num 3)], .obj [("NAME", .str "firefox")]])]) []
    "NAME" "fire" [.obj [("NAME", .num 3)], .obj [("NAME", .str "firefox")]] rfl ?_
  · rw [h]
    rfl
  · intro soft hs kk hkk
    simp at hs
    rcases hs with rfl | rfl
    · exact Except.noConfusion hkk
    · exact Except.noConfusion hkk

/--
Counterexample to C3 as stated: on a record whose software list holds one
entry without the requested `NAME` field, `computer_has_software` does not
silently skip the entry — it fails with `KeyError` and returns no boolean
at all.
-/
theorem has_software_missing_field_raises :
    Client.computer_has_software (.obj [("5", .obj [("", .arr [.obj []])])]) "NAME" "x"
      = .error (.keyError "NAME") ∧
    ∀ b : Bool,
      Client.computer_has_software (.obj [("5", .obj [("", .arr [.obj []])])]) "NAME" "x"
        ≠ .ok b := by
  refine ⟨rfl, fun b h => ?_⟩
  rw [show Client.computer_has_software (.obj [("5", .obj [("", .arr [.obj []])])]) "NAME" "x"
      = .error (.keyError "NAME") from rfl] at h
  exact Except.noConfusion h

/-- The id-extraction comprehension maps `ID`-subscripting over the entries
when every subscript succeeds. -/
theorem extractIds_map (l : List JValue) (idOf : JValue → JValue)
    (h : ∀ x ∈ l, pyIndexStr x "ID" = .ok (idOf x)) :
    Client.extractIds l = .ok (l.map idOf) := by
  induction l with
  | nil => rfl
  | cons x xs ih =>
    have hx := h x (List.mem_cons_self x xs)
    have hrest := ih (fun y hy => h y (List.mem_cons_of_mem x hy))
    simp [Client.extractIds, hx, hrest]

/--
C5: for every id-list response with HTTP status 200 whose body decodes to a
JSON array of objects each carrying an `ID` field, `list_computers_id`
returns the sequence of `ID` values of the entries, preserving server
order.
-/
theorem list_computers_id_ok (t : Client.Transport) (s : ClientState)
    (entries : List JValue) (idOf : JValue → JValue)
    (hstatus : (t (Client.computers_id_req s)).status_code = 200)
    (hbody : json_loads (t (Client.computers_id_req s)).text = .ok (.arr entries))
    (hid : ∀ e ∈ entries, pyIndexStr e "ID" = .ok (idOf e)) :
    (Client.list_computers_id t s).1 = .ok (entries.map idOf) := by
  simp [Client.list_computers_id, Client.get_computers_id, Client.is_response_valid,
    Client.response_to_collection, hstatus, hbody, pyIter, extractIds_map entries idOf hid]

/-- Witness for C5: the body `[{"ID":1},{"ID":2}]` with status 200 yields
`[1, 2]` in that order. -/
theorem list_computers_id_ok_witness :
    (Client.list_computers_id wTIds wState).1 = .ok [.num 1, .num 2] := by
  have h := list_computers_id_ok wTIds wState
    [.obj [("ID", .num 1)], .obj [("ID", .num 2)]]
    (fun e => match pyIndexStr e "ID" with | .ok v => v | .error _ => .null)
    rfl rfl ?_
  · rw [h]
    rfl
  · intro e he
    simp at he
    rcases he with rfl | rfl
    · rfl
    · rfl

/--
C7: for every id-list response whose body is a valid JSON array of length
N, `total_nb_computers` returns N; if the id-list response body is not
valid JSON, the operation fails with the decode error.
-/
theorem total_nb_computers_spec (t : Client.Transport) (s : ClientState) :
    (∀ xs : List JValue,
      json_loads (t (Client.computers_id_req s)).text = .ok (.arr xs) →
      (Client.total_nb_computers t s).1 = .ok xs.length) ∧
    (∀ raw : String,
      (t (Client.computers_id_req s)).text = .bad raw →
      (Client.total_nb_computers t s).1 = .error .jsonDecodeError) := by
  constructor
  · intro xs hb
    simp [Client.total_nb_computers, Client.get_computers_id, hb, pyLen]
  · intro raw hb
    simp [Client.total_nb_computers, Client.get_computers_id, hb, json_loads]

/-- Witness for C7: a 2-entry id list counts 2; a non-JSON body fails with
the decode error. -/
theorem total_nb_computers_spec_witness :
    (Client.total_nb_computers wTIds wState).1 = .ok 2 ∧
    (Client.total_nb_computers wTBad wState).1 = .error .jsonDecodeError := by
  constructor
  · have h := (total_nb_computers_spec wTIds wState).1
      [.obj [("ID", .num 1)], .obj [("ID", .num 2)]] rfl
    rw [h]
    rfl
  · exact (total_nb_computers_spec wTBad wState).2 "<html>auth required</html>" rfl

/--
C8: for every search criterion and value, `search_in_all_computers` first
issues the id-list request and computes the total count from it, then
issues exactly one search request with parameters `start=0` and `limit`
equal to that count — the full request trace is those two requests in that
order, and the search response is returned.
-/
theorem search_in_all_computers_spec (t : Client.Transport) (s : ClientState)
    (crit val : String) (xs : List JValue)
    (hb : json_loads (t (Client.computers_id_req s)).text = .ok (.arr xs)) :
    Client.search_in_all_computers t s crit val =
      (.ok (t (Client.computers_search_req s 0 (xs.length : Int) crit val)),
       [Client.computers_id_req s,
        Client.computers_search_req s 0 (xs.length : Int) crit val]) := by
  simp [Client.search_in_all_computers, Client.total_nb_computers,
    Client.get_computers_id, Client.get_computers_search, hb, pyLen]

/-- Witness for C8: with a 42-entry id list, the search request parameters
are `start=0, limit=42`. -/
theorem search_in_all_computers_spec_witness :
    Client.search_in_all_computers wT42 wState "NAME" "pc" =
      (.ok (wT42 (Client.computers_search_req wState 0 42 "NAME" "pc")),
       [Client.computers_id_req wState,
        Client.computers_search_req wState 0 42 "NAME" "pc"]) := by
  have h := search_in_all_computers_spec wT42 wState "NAME" "pc"
    (List.replicate 42 (.obj [("ID", .num 7)])) rfl
  simpa using h

/-- `list_computers_id` always issues exactly the id-list request. -/
theorem list_computers_id_trace (t : Client.Transport) (s : ClientState) :
    (Client.list_computers_id t s).2 = [Client.computers_id_req s] := by
  simp only [Client.list_computers_id, Client.get_computers_id]
  split
  · split
    · rfl
    · split <;> rfl
  · rfl

/-- The detail-fetching loop of `computers_by_tag`: when every detail
response has status 200, decodes (to `dec cid`) and the tag test succeeds
(with value `tago cid`), the loop returns the decoded records whose tag
test holds, in id order, and issues one detail request per id in order. -/
theorem byTagGo_spec (t : Client.Transport) (s : ClientState) (tag : String)
    (ids : List JValue) (dec : JValue → JValue) (tago : JValue → Bool)
    (hvalid : ∀ cid ∈ ids, (t (Client.computer_details_req s cid)).status_code = 200)
    (hdec : ∀ cid ∈ ids,
      json_loads (t (Client.computer_details_req s cid)).text = .ok (dec cid))
    (htag : ∀ cid ∈ ids, Client.computer_has_tag (dec cid) tag = .ok (tago cid)) :
    Client.byTagGo t s tag ids =
      (.ok ((ids.filter tago).map dec),
       ids.map (fun cid => Client.computer_details_req s cid)) := by
  induction ids with
  | nil => rfl
  | cons cid rest ih =>
    have h1 := hvalid cid (List.mem_cons_self cid rest)
    have h2 := hdec cid (List.mem_cons_self cid rest)
    have h3 := htag cid (List.mem_cons_self cid rest)
    have ihr := ih (fun c hc => hvalid c (List.mem_cons_of_mem cid hc))
      (fun c hc => hdec c (List.mem_cons_of_mem cid hc))
      (fun c hc => htag c (List.mem_cons_of_mem cid hc))
    simp [Client.byTagGo, Client.get_computer_details, Client.is_response_valid,
      Client.response_to_collection, h1, h2, h3, ihr, List.filter_cons]
    cases tago cid <;> simp

/--
C6: for every tag, `computers_by_tag` iterates over the ids returned by
`list_computers_id` in order, fetches each id's detail record (the request
trace is the id-list request followed by one detail request per id, in id
order), and returns exactly the decoded records for which the tag test
holds, preserving id order; records with valid 200 responses whose tag test
is false are excluded.
-/
theorem computers_by_tag_spec (t : Client.Transport) (s : ClientState) (tag : String)
    (ids : List JValue) (dec : JValue → JValue) (tago : JValue → Bool)
    (hids : (Client.list_computers_id t s).1 = .ok ids)
    (hvalid : ∀ cid ∈ ids, (t (Client.computer_details_req s cid)).status_code = 200)
    (hdec : ∀ cid ∈ ids,
      json_loads (t (Client.computer_details_req s cid)).text = .ok (dec cid))
    (htag : ∀ cid ∈ ids, Client.computer_has_tag (dec cid) tag = .ok (tago cid)) :
    Client.computers_by_tag t s tag =
      (.ok ((ids.filter tago).map dec),
       Client.computers_id_req s :: ids.map (fun cid => Client.computer_details_req s cid)) := by
  have hpair : Client.list_computers_id t s = (.ok ids, [Client.computers_id_req s]) :=
    Prod.ext hids (list_computers_id_trace t s)
  simp [Client.computers_by_tag, hpair, byTagGo_spec t s tag ids dec tago hvalid hdec htag]

/-- Witness for C6: ids `[1, 2]`, where computer 1 carries tag
`"lab-A,lab-B"` and computer 2 has empty accountinfo — the filter returns
exactly computer 1's full record. -/
theorem computers_by_tag_spec_witness :
    (Client.computers_by_tag wTTag wState "lab-A").1 = .ok [wRecTagged] := by
  have h := computers_by_tag_spec wTTag wState "lab-A" [.num 1, .num 2]
    (fun cid => match cid with | .num 1 => wRecTagged | _ => wRecPlain)
    (fun cid => match cid with | .num 1 => true | _ => false)
    rfl ?_ ?_ ?_
  · rw [h]
    rfl
  · intro cid hc
    simp at hc
    rcases hc with rfl | rfl
    · rfl
    · rfl
  · intro cid hc
    simp at hc
    rcases hc with rfl | rfl
    · rfl
    · rfl
  · intro cid hc
    simp at hc
    rcases hc with rfl | rfl
    · rfl
    · rfl

/--
C9: the session state (base URL, credentials, TLS-verification flag) is
fixed at construction — `Client.__init__` stores the given base URL and
credentials and sets `verify` to `False` (TLS certificate verification
disabled by default) — and no query operation (transport get, id listing,
detail fetch, paging, search, counting, or tag/software filtering) mutates
any of these fields: each state-threaded method returns the session state
it was entered with, reflecting that the method bodies contain no
assignment to any `self` attribute.
-/
theorem session_state_frame (base : String) (auth : Option (String × String))
    (att : Nat → Client.Attempt) (t : Client.Transport) (s : ClientState)
    (cid : JValue) (start limit : Int) (crit val tag : String) :
    ((Client.init base auth).base_url = base ∧
     (Client.init base auth).auth = auth ∧
     (Client.init base auth).verify = false) ∧
    ((Client.get_st att s).2 = s ∧
     (Client.get_computers_id_st t s).2 = s ∧
     (Client.get_computer_details_st t s cid).2 = s ∧
     (Client.get_computers_details_st t s start limit).2 = s ∧
     (Client.get_computers_search_st t s start limit crit val).2 = s ∧
     (Client.total_nb_computers_st t s).2 = s ∧
     (Client.search_in_all_computers_st t s crit val).2 = s ∧
     (Client.list_computers_id_st t s).2 = s ∧
     (Client.computers_by_tag_st t s tag).2 = s ∧
     (Client.computers_by_software_st t s crit val).2 = s) :=
  ⟨⟨rfl, rfl, rfl⟩, rfl, rfl, rfl, rfl, rfl, rfl, rfl, rfl, rfl, rfl⟩
